import Mathlib

/-!
Shallow embedding of the SoftDeck issue-tracking backend
(src/softdeck/api/models.py, views.py, permissions.py) and proofs about its
authorization, scoping and validation behaviour.

Users, projects, contributors, issues and comments are rows of a `Store`;
each endpoint handler is a function from a store and a principal to an
HTTP-style outcome and a successor store, translated clause by clause from
the Django view code.
-/

namespace SoftDeck

/-- Project row from models.py (`type` is spelled `ptype`; the Django field
name clashes with a Lean keyword). -/
structure Project where
  id : Nat
  title : String
  description : String
  ptype : String
  author : Nat
deriving DecidableEq, Repr

/-- Contributor membership row from models.py; `Meta.unique_together`
declares at most one row per (user, project) pair at the storage layer. -/
structure Contributor where
  id : Nat
  user : Nat
  project : Nat
deriving DecidableEq, Repr

/-- Issue row from models.py. `created_time` is an auto-set timestamp with no
bearing on any claim and is omitted. -/
structure Issue where
  id : Nat
  title : String
  description : String
  priority : String
  tag : String
  status : String
  project : Nat
  assigned_to : Option Nat
  author : Nat
deriving DecidableEq, Repr

/-- Comment row from models.py (UUID primary key modelled as a Nat id). -/
structure Comment where
  id : Nat
  description : String
  author : Nat
  issue : Nat
deriving DecidableEq, Repr

/-- The durable state: one list of rows per model. Users are identified by
their id. -/
structure Store where
  users : List Nat
  projects : List Project
  contributors : List Contributor
  issues : List Issue
  comments : List Comment
deriving DecidableEq, Repr

/-- HTTP-style outcomes of a request, as classified by the framework:
`serverError500` stands for an exception the REST framework exception
handler does not translate (it reaches the caller unclassified). -/
inductive Http
  | ok200
  | created201
  | noContent204
  | badRequest400
  | unauthorized401
  | forbidden403
  | notFound404
  | serverError500
deriving DecidableEq, Repr

/-! ## Dates and age validation (models.py) -/

/-- A calendar date as Python `datetime.date` exposes it: year, month, day. -/
structure PyDate where
  year : Int
  month : Nat
  day : Nat
deriving DecidableEq, Repr

/-- Python tuple comparison `(a1, a2) < (b1, b2)`: lexicographic. -/
def tupleLtBool (a b : Nat × Nat) : Bool :=
  decide (a.1 < b.1) || (decide (a.1 = b.1) && decide (a.2 < b.2))

/-- The age computation inside `validate_age` (models.py line 21):
`today.year - birth_date.year - ((today.month, today.day) < (birth_date.month, birth_date.day))`,
the boolean counting as 1 when true. -/
def computeAge (today birth : PyDate) : Int :=
  today.year - birth.year -
    (if tupleLtBool (today.month, today.day) (birth.month, birth.day) then 1 else 0)

/-- Outcome of a model-layer save or validation. -/
inductive SaveResult
  | ok
  | validationFailed
deriving DecidableEq, Repr

/-- Function `validate_age` (models.py lines 10-23): raises ValidationError
when the computed age is below 15. -/
def validate_age (today birth : PyDate) : SaveResult :=
  if computeAge today birth < 15 then SaveResult.validationFailed else SaveResult.ok

/-- Method `CustomUser.clean` (models.py lines 47-49): validates the age
whenever `birth_date` is set. -/
def customUserClean (today : PyDate) (birth_date : Option PyDate) : SaveResult :=
  match birth_date with
  | some b => validate_age today b
  | none => SaveResult.ok

/-- Method `CustomUser.save` (models.py lines 51-53): calls `self.clean()` on
every save, creation or update alike, before persisting. -/
def customUserSave (today : PyDate) (birth_date : Option PyDate) : SaveResult :=
  customUserClean today birth_date

/-! ## Membership and permission classes -/

/-- The `contributors__user=u` join filter: user `u` holds a Contributor row
on project `pid`. -/
def isContributorOf (s : Store) (u pid : Nat) : Bool :=
  s.contributors.any fun c => c.user == u && c.project == pid

/-- DRF safe methods (GET, HEAD, OPTIONS). -/
def isSafeMethod (m : String) : Bool :=
  m == "GET" || m == "HEAD" || m == "OPTIONS"

/-- Object-level permission classes appearing in views.py / permissions.py. -/
inductive PermClass
  | allowAny
  | isAuthorOrReadOnly
deriving DecidableEq, Repr

/-- has_object_permission of each class: `AllowAny` always grants;
`IsAuthorOrReadOnly` (views.py lines 62-65) grants safe methods to everyone
and write methods to the object author only. -/
def hasObjectPermission : PermClass → String → Nat → Nat → Bool
  | PermClass.allowAny, _, _, _ => true
  | PermClass.isAuthorOrReadOnly, m, requester, objAuthor =>
      if isSafeMethod m then true else objAuthor == requester

/-- `ProjectViewSet.get_permissions` (views.py lines 157-159) returns
`[AllowAny()]`; `IsAuthorOrReadOnly` is defined but never attached. -/
def projectGetPermissionClasses : List PermClass := [PermClass.allowAny]

/-- Request-level permission classes on the user views. -/
inductive ViewPerm
  | allowAny
  | isAuthenticated
deriving DecidableEq, Repr

/-- has_permission of a request-level class against the resolved principal
(`none` = anonymous / no valid bearer token). -/
def viewHasPermission : ViewPerm → Option Nat → Bool
  | ViewPerm.allowAny, _ => true
  | ViewPerm.isAuthenticated, principal => principal.isSome

/-- `UserListView.permission_classes = [AllowAny]` (views.py line 112). -/
def userListPermissionClasses : List ViewPerm := [ViewPerm.allowAny]

/-- `UserDetailView.permission_classes = [AllowAny]` (views.py line 134). -/
def userDetailPermissionClasses : List ViewPerm := [ViewPerm.allowAny]

/-- GET /users: when every permission class grants, the full user list is
served; an anonymous principal failing a permission check would get 401, an
authenticated one 403. -/
def userListRequest (s : Store) (principal : Option Nat) : Http × List Nat :=
  if userListPermissionClasses.all (fun c => viewHasPermission c principal) then
    (Http.ok200, s.users)
  else
    match principal with
    | none => (Http.unauthorized401, [])
    | some _ => (Http.forbidden403, [])

/-- GET /users/pk: permission gate, then the pk lookup inside
`CustomUser.objects.filter(id=pk)` (views.py lines 138-139). -/
def userDetailRequest (s : Store) (principal : Option Nat) (pk : Nat) : Http :=
  if userDetailPermissionClasses.all (fun c => viewHasPermission c principal) then
    if s.users.any (fun x => x == pk) then Http.ok200 else Http.notFound404
  else
    match principal with
    | none => Http.unauthorized401
    | some _ => Http.forbidden403

/-! ## ProjectViewSet (views.py lines 142-182) -/

/-- `ProjectViewSet.get_queryset` (views.py lines 162-163):
`Project.objects.filter(contributors__user=self.request.user)` — visibility is
decided by Contributor rows alone; the project author is not unioned in. -/
def projectGetQueryset (s : Store) (u : Nat) : List Project :=
  s.projects.filter fun p => isContributorOf s u p.id

/-- GET /projects/pid: `get_object` resolves the pk inside the scoped
queryset and raises 404 when it is absent. -/
def projectRetrieve (s : Store) (u pid : Nat) : Option Project :=
  (projectGetQueryset s u).find? fun p => p.id == pid

/-- Cascade delete of a project: Contributor and Issue rows cascade on their
project FK, Comment rows cascade through their issue. -/
def deleteProjectCascade (s : Store) (pid : Nat) : Store :=
  let deadIssue : Nat → Bool := fun iid =>
    s.issues.any fun i => i.id == iid && i.project == pid
  { s with
    projects := s.projects.filter fun p => ! (p.id == pid)
    contributors := s.contributors.filter fun c => ! (c.project == pid)
    issues := s.issues.filter fun i => ! (i.project == pid)
    comments := s.comments.filter fun cm => ! (deadIssue cm.issue) }

/-- DELETE /projects/pid: the default `destroy` runs `get_object` (scoped
queryset, 404 when absent, then `check_object_permissions` over
`get_permissions()`, which returns `[AllowAny()]`) and deletes the instance.
The overridden `perform_destroy` that re-checked object permissions is
commented out (views.py lines 171-182). -/
def projectDestroy (s : Store) (u pid : Nat) : Http × Store :=
  match projectRetrieve s u pid with
  | none => (Http.notFound404, s)
  | some p =>
    if projectGetPermissionClasses.all
        (fun c => hasObjectPermission c "DELETE" u p.author) then
      (Http.noContent204, deleteProjectCascade s p.id)
    else
      (Http.forbidden403, s)

/-- POST /projects: the `perform_create` override that saved
`author=request.user` and then created `Contributor(user, project)` is
commented out (views.py lines 171-182, marked DEBUG), so the default
CreateModelMixin runs: exactly the project row from the validated payload is
persisted and nothing else is written. -/
def projectCreate (s : Store) (p : Project) : Http × Store :=
  (Http.created201, { s with projects := s.projects ++ [p] })

/-! ## ContributorViewSet (views.py lines 184-290) -/

/-- What `ContributorViewSet.perform_create` itself does when called. -/
inductive PerformCreateResult
  | http404
  | responseReturned (code : Http)
  | djangoValidationRaised
  | saved (row : Contributor)
deriving DecidableEq, Repr

/-- `ContributorViewSet.perform_create` (views.py lines 216-242), clause by
clause: `get_object_or_404(Project, id=project_pk)`; when the requester is
not the project author it builds and returns a 403 Response (it does not
raise); when the target user already holds a Contributor row on the project
it raises `django.core.exceptions.ValidationError` (the `ValidationError`
imported at views.py line 1); otherwise it saves the row. -/
def contributorPerformCreate (s : Store) (requester projectPk targetUser newId : Nat) :
    PerformCreateResult :=
  match s.projects.find? (fun p => p.id == projectPk) with
  | none => PerformCreateResult.http404
  | some project =>
    if ! (project.author == requester) then
      PerformCreateResult.responseReturned Http.forbidden403
    else if s.contributors.any (fun c => c.user == targetUser && c.project == project.id) then
      PerformCreateResult.djangoValidationRaised
    else
      PerformCreateResult.saved ⟨newId, targetUser, project.id⟩

/-- POST /projects/pk/contributors through DRF `CreateModelMixin.create`: the
return value of `perform_create` is discarded and a 201 response is sent
whenever `perform_create` does not raise; an Http404 raised inside maps to
404; a `django.core.exceptions.ValidationError` is not an APIException, so
the exception handler leaves it unclassified (500). -/
def contributorCreate (s : Store) (requester projectPk targetUser newId : Nat) :
    Http × Store :=
  match contributorPerformCreate s requester projectPk targetUser newId with
  | PerformCreateResult.http404 => (Http.notFound404, s)
  | PerformCreateResult.responseReturned _ => (Http.created201, s)
  | PerformCreateResult.djangoValidationRaised => (Http.serverError500, s)
  | PerformCreateResult.saved row =>
      (Http.created201, { s with contributors := s.contributors ++ [row] })

/-! ## IssueViewSet (views.py lines 293-319) -/

/-- `IssueViewSet.perform_create` (views.py lines 315-319):
`issue = serializer.save(author=self.request.user)` persists the row first,
with the author forced to the requester; only afterwards does the
`assigned_to` membership check run, raising a rest_framework
ValidationError (400) without undoing the save. -/
def issueCreate (s : Store) (requester : Nat) (row : Issue) : Http × Store :=
  let issue : Issue := { row with author := requester }
  let saved : Store := { s with issues := s.issues ++ [issue] }
  match issue.assigned_to with
  | some v =>
      if s.contributors.any (fun c => c.user == v && c.project == issue.project) then
        (Http.created201, saved)
      else
        (Http.badRequest400, saved)
  | none => (Http.created201, saved)

/-! ## Deleting a user (models.py on_delete declarations) -/

/-- Deleting a CustomUser, following the `on_delete` declarations in
models.py: `Project.author` CASCADE, `Contributor.user` CASCADE,
`Issue.author` CASCADE, `Issue.assigned_to` CASCADE (models.py line 110
declares CASCADE, not SET_NULL), `Comment.author` CASCADE; project and issue
deletions cascade transitively to their contributors, issues and comments. -/
def deleteUserCascade (s : Store) (u : Nat) : Store :=
  let deadProject : Nat → Bool := fun pid =>
    s.projects.any fun p => p.id == pid && p.author == u
  let issueDead : Issue → Bool := fun i =>
    i.author == u || i.assigned_to == some u || deadProject i.project
  let deadIssue : Nat → Bool := fun iid =>
    s.issues.any fun i => i.id == iid && issueDead i
  { users := s.users.filter fun x => ! (x == u)
    projects := s.projects.filter fun p => ! (p.author == u)
    contributors := s.contributors.filter fun c => ! (c.user == u || deadProject c.project)
    issues := s.issues.filter fun i => ! (issueDead i)
    comments := s.comments.filter fun cm => ! (cm.author == u || deadIssue cm.issue) }

/-! ## Module namespace contents (views.py line 9 vs permissions.py) -/

/-- The names views.py imports from the permissions module (views.py line 9). -/
def viewsPermissionImports : List String := ["IsAuthor"]

/-- The class names the permissions module defines (permissions.py). -/
def permissionsModuleNames : List String :=
  ["IsAuthorOrReadOnly", "IsContributor", "IsProjectAuthor"]

/-- An imported name resolves when the permissions module defines it. -/
def importResolves (name : String) : Bool :=
  permissionsModuleNames.contains name

/-! ## Concrete stores used as failing inputs -/

/-- The fixture of tests.py `setUp`: user 1 is the project author, user 2
holds the only Contributor row, user 3 is an outsider. -/
def s0 : Store :=
  { users := [1, 2, 3]
    projects := [⟨1, "Test Project Bis", "Desc", "BACKEND", 1⟩]
    contributors := [⟨1, 2, 1⟩]
    issues := []
    comments := [] }

/-- Store for the user-deletion claim: issue 7 is authored by user 1 and
merely assigned to user 2. -/
def s8 : Store :=
  { users := [1, 2]
    projects := [⟨1, "Alpha", "", "BACKEND", 1⟩]
    contributors := [⟨1, 1, 1⟩, ⟨2, 2, 1⟩]
    issues := [⟨7, "Bug", "", "HIGH", "BUG", "TODO", 1, some 2, 1⟩]
    comments := [] }

/-! ## Claims -/

/-- C1: the claim grants every project GET to the author or a contributor;
on the code, visibility is decided by Contributor rows alone. At the
repository's own test fixture, project 1 is authored by user 1, who holds no
Contributor row: user 1's detail GET finds nothing (404) while contributor
user 2 succeeds. -/
theorem c1_author_get_denied :
    (SoftDeck.s0.projects.any fun p => p.id == 1 && p.author == 1) = true ∧
    SoftDeck.projectRetrieve SoftDeck.s0 1 1 = none ∧
    (SoftDeck.projectRetrieve SoftDeck.s0 2 1).isSome = true := by
  decide

/-- C2: the claim restricts PATCH/DELETE on a project to its author with 403
for everyone else; on the code, `get_permissions` returns `[AllowAny()]`, so
contributor user 2 — not the author of project 1 — deletes it with 204 and
the project row is gone, although the (unattached) `IsAuthorOrReadOnly`
check would have denied the request. -/
theorem c2_non_author_delete_succeeds :
    (SoftDeck.s0.projects.any fun p => p.id == 1 && ! (p.author == 2)) = true ∧
    SoftDeck.hasObjectPermission SoftDeck.PermClass.isAuthorOrReadOnly "DELETE" 2 1 = false ∧
    (SoftDeck.projectDestroy SoftDeck.s0 2 1).1 = SoftDeck.Http.noContent204 ∧
    (SoftDeck.projectDestroy SoftDeck.s0 2 1).2.projects = [] := by
  decide

/-- C3: the claim says creating a project as user U persists exactly one
Contributor row (U, P); on the code, the auto-enrollment in `perform_create`
is commented out, so project creation never touches the contributors table
and the new project has zero Contributor rows. -/
theorem c3_create_persists_no_contributor_row :
    (∀ (s : SoftDeck.Store) (p : SoftDeck.Project),
        (SoftDeck.projectCreate s p).2.contributors = s.contributors) ∧
    ((SoftDeck.projectCreate SoftDeck.s0 ⟨2, "Alpha", "", "BACKEND", 1⟩).2.contributors.filter
        (fun c => c.user == 1 && c.project == 2)).length = 0 :=
  ⟨fun _ _ => rfl, by decide⟩

/-- C4: the claim says a non-author's contributor creation terminates with
403 and persists no row; on the code, `perform_create` builds a 403 Response
but returns it, and DRF discards that return value, so the observable
outcome of user 2 (not the author of project 1) adding user 3 is 201 Created
with the store unchanged. -/
theorem c4_forbidden_response_discarded :
    SoftDeck.contributorPerformCreate SoftDeck.s0 2 1 3 10 =
      SoftDeck.PerformCreateResult.responseReturned SoftDeck.Http.forbidden403 ∧
    SoftDeck.contributorCreate SoftDeck.s0 2 1 3 10 = (SoftDeck.Http.created201, SoftDeck.s0) := by
  decide

/-- C5: the claim requires the duplicate (user, project) add to fail with a
classified conflict; on the code, after author user 1 adds user 3 to project
1 once, the second add hits the duplicate guard, which raises
`django.core.exceptions.ValidationError` — unclassified by the REST
exception handler (500) — while the row count for the pair stays 1. -/
theorem c5_duplicate_add_unclassified :
    ((SoftDeck.contributorCreate SoftDeck.s0 1 1 3 10).2.contributors.filter
        (fun c => c.user == 3 && c.project == 1)).length = 1 ∧
    SoftDeck.contributorCreate (SoftDeck.contributorCreate SoftDeck.s0 1 1 3 10).2 1 1 3 11 =
      (SoftDeck.Http.serverError500, (SoftDeck.contributorCreate SoftDeck.s0 1 1 3 10).2) := by
  decide

/-- C6: the claim says the assignee membership is validated before any Issue
row is persisted, so no row exists after the failure; on the code,
`serializer.save` runs first, so user 2 creating issue 7 on project 1
assigned to non-contributor user 3 receives the 400 validation failure and
the Issue row is nevertheless in the store. -/
theorem c6_issue_persisted_despite_failure :
    (SoftDeck.issueCreate SoftDeck.s0 2 ⟨7, "Bug", "", "HIGH", "BUG", "TODO", 1, some 3, 2⟩).1 =
      SoftDeck.Http.badRequest400 ∧
    ((SoftDeck.issueCreate SoftDeck.s0 2 ⟨7, "Bug", "", "HIGH", "BUG", "TODO", 1, some 3, 2⟩).2.issues.filter
        (fun i => i.id == 7)).length = 1 := by
  decide

/-- C7: a user save with `birth_date` set succeeds exactly when the age
computed from the current date is at least 15, and the boundary date of the
fifteenth birthday (same month and day) yields age exactly 15 and succeeds;
`CustomUser.save` runs this check on every save, creation or later update. -/
theorem c7_age_validation :
    (∀ (today birth : SoftDeck.PyDate),
        SoftDeck.customUserSave today (some birth) = SoftDeck.SaveResult.ok ↔
          15 ≤ SoftDeck.computeAge today birth) ∧
    (∀ (y : Int) (m d : Nat),
        SoftDeck.computeAge ⟨y + 15, m, d⟩ ⟨y, m, d⟩ = 15 ∧
        SoftDeck.customUserSave ⟨y + 15, m, d⟩ (some ⟨y, m, d⟩) = SoftDeck.SaveResult.ok) := by
  constructor
  · intro today birth
    simp only [SoftDeck.customUserSave, SoftDeck.customUserClean, SoftDeck.validate_age]
    by_cases h : SoftDeck.computeAge today birth < 15
    · simp [h]
    · simp [h]
      omega
  · intro y m d
    have hc : SoftDeck.computeAge ⟨y + 15, m, d⟩ ⟨y, m, d⟩ = 15 := by
      simp [SoftDeck.computeAge, SoftDeck.tupleLtBool]
    refine ⟨hc, ?_⟩
    simp [SoftDeck.customUserSave, SoftDeck.customUserClean, SoftDeck.validate_age, hc]

/-- C8: the claim says an issue merely assigned to a deleted user survives
with `assigned_to` nulled; on the code, `Issue.assigned_to` declares
`on_delete=CASCADE`, so deleting user 2 deletes issue 7 even though its
author is user 1. -/
theorem c8_assignee_cascade_deletes_issue :
    (SoftDeck.s8.issues.any fun i =>
        i.id == 7 && i.author == 1 && i.assigned_to == some 2) = true ∧
    (SoftDeck.deleteUserCascade SoftDeck.s8 2).issues = [] := by
  decide

/-- C9 counterexample: the claim says every /users request without a valid
bearer identity is rejected with 401; on the code, both user views carry
`AllowAny`, so the anonymous list request and the anonymous detail request
on an existing user both succeed with 200. -/
theorem c9_counterexample_anonymous_served :
    (SoftDeck.userListRequest SoftDeck.s0 none).1 = SoftDeck.Http.ok200 ∧
    SoftDeck.userDetailRequest SoftDeck.s0 none 1 = SoftDeck.Http.ok200 := by
  decide

/-- C9 amended: the /users list and /users/pk detail routes are configured
with `AllowAny`: every request — anonymous or authenticated — passes the
permission gate; the list always answers 200 and the detail answers 200 or
404, never 401. -/
theorem c9_users_routes_allow_any (s : SoftDeck.Store) (principal : Option Nat) (pk : Nat) :
    (SoftDeck.userListRequest s principal).1 = SoftDeck.Http.ok200 ∧
    (SoftDeck.userDetailRequest s principal pk = SoftDeck.Http.ok200 ∨
      SoftDeck.userDetailRequest s principal pk = SoftDeck.Http.notFound404) := by
  refine ⟨rfl, ?_⟩
  unfold SoftDeck.userDetailRequest
  by_cases h : s.users.any (fun x => x == pk) = true <;> simp [h, SoftDeck.userDetailPermissionClasses, SoftDeck.viewHasPermission]

/-- C10: the claim says every name the views module imports from the
permissions module is defined there, in particular `IsAuthor`; on the code,
the permissions module defines only `IsAuthorOrReadOnly`, `IsContributor`
and `IsProjectAuthor`, so the import of `IsAuthor` does not resolve and
loading the views module fails. -/
theorem c10_import_unresolved :
    ("IsAuthor" ∈ SoftDeck.viewsPermissionImports) ∧
    SoftDeck.importResolves "IsAuthor" = false ∧
    SoftDeck.viewsPermissionImports.all SoftDeck.importResolves = false := by
  decide

end SoftDeck
